import Mathlib

/-!
Shallow embedding of the WorkloadSpread admission validation engine
(`pkg/webhook/workloadspread/validating/workloadspread_validation.go`).

Pure data and control flow are translated directly from the Go source.
External collaborators (the object store, the strategic-merge-patch and
JSON codec libraries, the delegated kubernetes structural validators and
the dynamic custom-workload whitelist) are passed in as explicit
environments, mirroring the spec's description of them as black-box
collaborators.  Machine integers (int32 and int) are modelled as `Int`;
none of the validated quantities can overflow in the scenarios the
validator handles (subset counts and percentages are small), and the one
float computation in the source (`math.Ceil(v * total / 100)` inside
`intstr.GetValueFromIntOrPercent`) is exact for the magnitudes involved,
so it is modelled as exact integer ceiling division.
-/

/-- One element of a kubernetes `field.Path`: `Child` adds a named child,
`Index` adds a numeric list index. -/
inductive FieldPathElem
  | child (s : String)
  | index (n : Nat)
deriving DecidableEq, Repr

/-- A kubernetes `*field.Path`, as the list of its elements from the root. -/
abbrev FieldPath := List FieldPathElem

/-- `p.Child(s)` on a field path. -/
def FieldPath.child (p : FieldPath) (s : String) : FieldPath :=
  p ++ [FieldPathElem.child s]

/-- `p.Index(n)` on a field path. -/
def FieldPath.index (p : FieldPath) (n : Nat) : FieldPath :=
  p ++ [FieldPathElem.index n]

/-- The `field.ErrorType` values this validator produces. -/
inductive ErrorCategory
  | required
  | invalid
  | internalError
deriving DecidableEq, Repr

/-- A `field.Error`.  The Go error also carries the offending value
(`BadValue`); the claims only concern the category, the field path and
the detail message, so the bad value is not modelled. -/
structure FieldError where
  category : ErrorCategory
  path : FieldPath
  detail : String
deriving DecidableEq, Repr

/-- `field.Invalid(path, value, detail)`. -/
def mkInvalid (p : FieldPath) (d : String) : FieldError :=
  ⟨ErrorCategory.invalid, p, d⟩

/-- `field.Required(path, detail)`. -/
def mkRequired (p : FieldPath) (d : String) : FieldError :=
  ⟨ErrorCategory.required, p, d⟩

/-- `field.InternalError(path, err)`. -/
def mkInternalError (p : FieldPath) (d : String) : FieldError :=
  ⟨ErrorCategory.internalError, p, d⟩

/-- Raw bytes (`[]byte`), as a list of byte values. -/
abbrev RawBytes := List Nat

/-- `schema.GroupVersion`. -/
structure GroupVersion where
  group : String
  version : String
deriving DecidableEq, Repr

/-- Splits a character list at the first `'/'`: returns the characters
before it and the characters after it, or `none` when there is no slash.
This mirrors `strings.Index(gv, "/")` followed by the two slicings
`gv[:i]` and `gv[i+1:]` in `schema.ParseGroupVersion`. -/
def splitFirstSlash : List Char → Option (List Char × List Char)
  | [] => none
  | c :: rest =>
    if c = '/' then some ([], rest)
    else (splitFirstSlash rest).map fun ab => (c :: ab.1, ab.2)

/-- `schema.ParseGroupVersion`: the empty string and `"/"` parse to the
empty group/version, a slash-free string is a bare version with empty
group, one slash splits group from version, and more than one slash is
an error. -/
def ParseGroupVersion (gv : String) : Except String GroupVersion :=
  if gv = "" ∨ gv = "/" then Except.ok ⟨"", ""⟩
  else
    match (gv.data.filter fun c => c = '/').length with
    | 0 => Except.ok ⟨"", gv⟩
    | 1 =>
      match splitFirstSlash gv.data with
      | some ab => Except.ok ⟨String.mk ab.1, String.mk ab.2⟩
      | none => Except.ok ⟨"", gv⟩
    | _ => Except.error ("unexpected GroupVersion string: " ++ gv)

/-- The group a caller gets when it ignores the `ParseGroupVersion` error
(`gv, _ := schema.ParseGroupVersion(...)`): the zero `GroupVersion` has
an empty group. -/
def parsedGroup (apiVersion : String) : String :=
  match ParseGroupVersion apiVersion with
  | Except.ok gv => gv.group
  | Except.error _ => ""

/-- `appsv1alpha1.TargetReference`. -/
structure TargetReference where
  apiVersion : String
  kind : String
  name : String
deriving DecidableEq, Repr

/-- `verifyGroupKind` from the source: parse the reference's apiVersion
(propagating a parse failure), then report whether the kind matches and
the parsed group is one of the expected groups. -/
def verifyGroupKind (ref : TargetReference) (expectedKind : String)
    (expectedGroups : List String) : Except String Bool :=
  match ParseGroupVersion ref.apiVersion with
  | Except.error e => Except.error e
  | Except.ok gv =>
    if ref.kind ≠ expectedKind then Except.ok false
    else Except.ok (expectedGroups.contains gv.group)

/-- `intstr.Type`: an `IntOrString` holds either an integer or a string. -/
inductive IntOrStringType
  | int
  | str
deriving DecidableEq, Repr

/-- `intstr.IntOrString`. -/
structure IntOrString where
  type : IntOrStringType
  intVal : Int
  strVal : String
deriving DecidableEq, Repr

/-- Convenience constructor for an integer-typed `IntOrString`
(`intstr.FromInt`). -/
def IntOrString.fromInt (n : Int) : IntOrString :=
  ⟨IntOrStringType.int, n, ""⟩

/-- Convenience constructor for a string-typed `IntOrString`
(`intstr.FromString`). -/
def IntOrString.fromStr (s : String) : IntOrString :=
  ⟨IntOrStringType.str, 0, s⟩

/-- `strings.HasSuffix(s, "%")` plus `strings.TrimSuffix(s, "%")`:
returns the string without its trailing percent sign, or `none` when the
string does not end in one. -/
def trimTrailingPercent (s : String) : Option String :=
  match s.data.reverse with
  | '%' :: rest => some (String.mk rest.reverse)
  | _ => none

/-- Digit-by-digit accumulation of a decimal numeral; `none` on any
non-digit character.  (`[]` yields the accumulator, matching `strconv`
only because callers reject the empty numeral separately.) -/
def parseDigits : List Char → Nat → Option Nat
  | [], acc => some acc
  | c :: rest, acc =>
    if c.isDigit then parseDigits rest (acc * 10 + (c.toNat - 48)) else none

/-- `strconv.Atoi`: an optional sign followed by at least one decimal
digit.  (Overflow of the 64-bit result cannot occur for the percentage
strings this validator handles and is not modelled.) -/
def atoi (s : String) : Option Int :=
  match s.data with
  | [] => none
  | '-' :: rest =>
    if rest = [] then none else (parseDigits rest 0).map fun n => -(n : Int)
  | '+' :: rest =>
    if rest = [] then none else (parseDigits rest 0).map fun n => (n : Int)
  | cs => (parseDigits cs 0).map fun n => (n : Int)

/-- `intstr.getIntOrPercentValueSafely`: an int-typed value is itself and
is not a percent; a string-typed value must end in `%` and have an
integer numeral before it. -/
def getIntOrPercentValueSafely (x : IntOrString) : Except String (Int × Bool) :=
  match x.type with
  | IntOrStringType.int => Except.ok (x.intVal, false)
  | IntOrStringType.str =>
    match trimTrailingPercent x.strVal with
    | none => Except.error "invalid type: string is not a percentage"
    | some numeral =>
      match atoi numeral with
      | none => Except.error ("invalid value " ++ x.strVal)
      | some v => Except.ok (v, true)

/-- Ceiling of `a / b` for `b > 0`, via floor division:
`math.Ceil` on the exact quotient. -/
def ceilDiv (a b : Int) : Int := -((-a).fdiv b)

/-- `intstr.GetValueFromIntOrPercent(x, total, roundUp := true)`: an
int-typed value resolves to itself, a percentage resolves to
`ceil(v * total / 100)`. -/
def GetValueFromIntOrPercent (x : IntOrString) (total : Int) : Except String Int :=
  match getIntOrPercentValueSafely x with
  | Except.error e => Except.error e
  | Except.ok vp =>
    if vp.2 then Except.ok (ceilDiv (vp.1 * total) 100) else Except.ok vp.1

example : GetValueFromIntOrPercent (IntOrString.fromStr "30%") 100 = Except.ok 30 := rfl
example : GetValueFromIntOrPercent (IntOrString.fromStr "-10%") 100 = Except.ok (-10) := rfl
example : GetValueFromIntOrPercent (IntOrString.fromStr "x") 100
    = Except.error "invalid type: string is not a percentage" := rfl
example : GetValueFromIntOrPercent (IntOrString.fromInt 7) 100 = Except.ok 7 := rfl
example : ParseGroupVersion "apps/v1" = Except.ok ⟨"apps", "v1"⟩ := rfl
example : ParseGroupVersion "v1" = Except.ok ⟨"", "v1"⟩ := rfl
example : (ParseGroupVersion "a/b/c").isOk = false := by decide

/-- A pod object (`v1.Pod` / `core.Pod`).  Its contents are irrelevant to
the validator's control flow, which only threads pods between the codec,
the convertor and the delegated pod-spec validator; the raw bytes stand
in for whatever state those collaborators gave it. -/
structure Pod where
  raw : RawBytes
deriving DecidableEq, Repr

/-- The zero pod `&v1.Pod{}`. -/
def Pod.empty : Pod := ⟨[]⟩

/-- The external collaborators of the patch-simulation step:
`strategicpatch.StrategicMergePatch`, `json.Unmarshal` into a `v1.Pod`,
`convertor.ConvertPod` and `corevalidation.ValidatePodSpec` (the latter
receives the base field path it reports errors under). -/
structure PatchOps where
  merge : RawBytes → RawBytes → Except String RawBytes
  unmarshal : RawBytes → Except String Pod
  convert : Pod → Except String Pod
  validatePodSpec : Pod → FieldPath → List FieldError

/-- The patch-simulation step of `validateWorkloadSpreadSubsets` (the body
of the `subset.Patch.Raw != nil && workloadTemplate != nil` branch), for a
subset whose patch errors are reported under `patchPath`.

Control-flow details taken from the source:
* a failing `StrategicMergePatch` appends an Invalid error but does NOT
  return or skip the rest of the branch; in Go it returns `nil` modified
  bytes alongside its error, so the subsequent `json.Unmarshal` runs on
  empty input (modelled as `[]`);
* a failing `json.Unmarshal` likewise only appends an error, and the pod
  stays the zero `&v1.Pod{}`;
* the convert-failure message formats the stale `err` variable — the
  unmarshal step's error (or Go's `<nil>` when the unmarshal succeeded)
  — not the conversion error itself;
* a failing `ConvertPod` also only appends an error, and pod-spec
  validation still runs (on the zero pod here; the Go code dereferences
  whatever `ConvertPod` returned). -/
def simulatePatch (ops : PatchOps) (podBytes patchRaw : RawBytes)
    (patchPath : FieldPath) : List FieldError :=
  let mergeRes := ops.merge podBytes patchRaw
  let modified : RawBytes := match mergeRes with
    | Except.ok m => m
    | Except.error _ => []
  let mergeErrs : List FieldError := match mergeRes with
    | Except.ok _ => []
    | Except.error e => [mkInvalid patchPath ("failed to merge patch: " ++ e)]
  let unmarshalRes := ops.unmarshal modified
  let newPod : Pod := match unmarshalRes with
    | Except.ok p => p
    | Except.error _ => Pod.empty
  let staleErr : String := match unmarshalRes with
    | Except.ok _ => "<nil>"
    | Except.error e => e
  let unmarshalErrs : List FieldError := match unmarshalRes with
    | Except.ok _ => []
    | Except.error e => [mkInvalid patchPath ("failed to unmarshal: " ++ e)]
  let convertRes := ops.convert newPod
  let corePod : Pod := match convertRes with
    | Except.ok p => p
    | Except.error _ => Pod.empty
  let convertErrs : List FieldError := match convertRes with
    | Except.ok _ => []
    | Except.error _ =>
      [mkInvalid patchPath ("Convert_v1_Pod_To_core_Pod failed: " ++ staleErr)]
  mergeErrs ++ unmarshalErrs ++ convertErrs ++ ops.validatePodSpec corePod patchPath

/-- `appsv1alpha1.WorkloadSpreadSubset`.  The scheduling-constraint fields
(`requiredNodeSelectorTerm`, `preferredNodeSelectorTerms`, `tolerations`)
are validated purely by delegated kubernetes structural validators
(source lines 261-296), which never short-circuit the loop; their
aggregated output enters the embedding through the `structural`
environment function, so those fields themselves are not modelled. -/
structure WorkloadSpreadSubset where
  name : String
  maxReplicas : Option IntOrString
  patchRaw : Option RawBytes
deriving DecidableEq, Repr

/-- `appsv1alpha1.AdaptiveWorkloadSpreadStrategy`
(`RescheduleCriticalSeconds *int32`). -/
structure AdaptiveWorkloadSpreadStrategy where
  rescheduleCriticalSeconds : Option Int
deriving DecidableEq, Repr

/-- `appsv1alpha1.WorkloadSpreadScheduleStrategy`.  The type is the raw
string; the valid values are `""`, `"Fixed"` and `"Adaptive"`. -/
structure WorkloadSpreadScheduleStrategy where
  type : String
  adaptive : Option AdaptiveWorkloadSpreadStrategy
deriving DecidableEq, Repr

/-- `appsv1alpha1.TargetFilter`; only its label selector matters here, and
only through the external `metav1.LabelSelectorAsSelector` parser. -/
structure TargetFilter where
  selector : String
deriving DecidableEq, Repr

/-- `appsv1alpha1.WorkloadSpreadSpec`. -/
structure WorkloadSpreadSpec where
  targetReference : Option TargetReference
  subsets : List WorkloadSpreadSubset
  scheduleStrategy : WorkloadSpreadScheduleStrategy
  targetFilter : Option TargetFilter
deriving DecidableEq, Repr

/-- `appsv1alpha1.WorkloadSpread` (metadata name and namespace plus the
spec; `ns` because `namespace` is reserved in Lean). -/
structure WorkloadSpread where
  name : String
  ns : String
  spec : WorkloadSpreadSpec
deriving DecidableEq, Repr

/-- The `ws.Spec.TargetReference != nil && ...Kind == controllerKindSts.Kind`
test guarding the StatefulSet integer-only rule. -/
def stsTarget (ws : WorkloadSpread) : Bool :=
  match ws.spec.targetReference with
  | some r => r.kind = "StatefulSet"
  | none => false

/-- `subsets[len(subsets)-1].MaxReplicas != nil` (false on the empty list,
which the callers exclude before indexing). -/
def lastMaxReplicasSet (l : List WorkloadSpreadSubset) : Bool :=
  match l.getLast? with
  | some s => s.maxReplicas.isSome
  | none => false

/-- Outcome of the `subset.MaxReplicas` block for one subset: either the
loop continues with an updated percentage sum and first-seen type, or it
stops — the Go `return allErrs` — after appending one Invalid error with
the given message on this subset's `maxReplicas` field. -/
inductive StepResult
  | cont (sum : Int) (ft : Option IntOrStringType)
  | stop (msg : String)
deriving DecidableEq, Repr

/-- The arithmetic checks of the `subset.MaxReplicas != nil` block (source
lines 345-362), run after the type-consistency check: the StatefulSet
integer-only rule, resolution against a base of 100 with a non-negativity
requirement, and the running percentage sum capped at 100. -/
def maxReplicasArith (ws : WorkloadSpread) (m : IntOrString) (sum : Int)
    (ft : Option IntOrStringType) : StepResult :=
  if stsTarget ws ∧ m.type ≠ IntOrStringType.int then
    StepResult.stop "the maxReplicas type must be Int for StatefulSet"
  else
    match GetValueFromIntOrPercent m 100 with
    | Except.error _ => StepResult.stop "maxReplicas is not valid for subset"
    | Except.ok v =>
      if v < 0 then StepResult.stop "maxReplicas is not valid for subset"
      else if m.type = IntOrStringType.str then
        if sum + v > 100 then
          StepResult.stop "the sum of all subset's maxReplicas exceeds 100% is no permitted"
        else StepResult.cont (sum + v) ft
      else StepResult.cont sum ft

/-- The whole `subset.MaxReplicas` block (source lines 337-363): a nil
`MaxReplicas` is skipped; the first non-nil one fixes the type; a later
one of a different type stops the loop; otherwise the arithmetic checks
run. -/
def maxReplicasStep (ws : WorkloadSpread) (mr : Option IntOrString) (sum : Int)
    (ft : Option IntOrStringType) : StepResult :=
  match mr with
  | none => StepResult.cont sum ft
  | some m =>
    match ft with
    | none => maxReplicasArith ws m sum (some m.type)
    | some t =>
      if m.type ≠ t then
        StepResult.stop "the maxReplicas type of all subsets must be the same"
      else maxReplicasArith ws m sum (some t)

/-- `sets.String.Insert` as performed by the loop: empty subset names are
never inserted into the seen set. -/
def seenInsert (seen : List String) (s : WorkloadSpreadSubset) : List String :=
  if s.name = "" then seen else s.name :: seen

/-- The error-accumulating (never short-circuiting) checks of one loop
iteration, in source order: the name emptiness/uniqueness check, the
delegated structural validation of the scheduling-constraint fields
(`structural i s`), and — only when the subset carries a patch and a
workload template was resolved — the patch simulation. -/
def subsetBaseErrs (structural : Nat → WorkloadSpreadSubset → List FieldError)
    (ops : PatchOps) (tmpl : Option RawBytes) (fldPath : FieldPath)
    (i : Nat) (seen : List String) (s : WorkloadSpreadSubset) : List FieldError :=
  (if s.name = "" then [mkInvalid ((fldPath.index i).child "name") ""]
   else if seen.contains s.name then
     [mkInvalid ((fldPath.index i).child "name") ("duplicated subset name " ++ s.name)]
   else [])
  ++ structural i s
  ++ (match s.patchRaw, tmpl with
      | some raw, some podBytes =>
        simulatePatch ops podBytes raw ((fldPath.index i).child "patch")
      | _, _ => [])

/-- The `for i, subset := range subsets` loop of
`validateWorkloadSpreadSubsets`.  Returns the accumulated errors together
with `some (seen, sum, firstType)` when the loop ran to completion, or
`none` when one of the `MaxReplicas` checks returned early. -/
def subsetsLoop (structural : Nat → WorkloadSpreadSubset → List FieldError)
    (ops : PatchOps) (ws : WorkloadSpread) (tmpl : Option RawBytes)
    (fldPath : FieldPath) :
    List WorkloadSpreadSubset → Nat → List String → Int → Option IntOrStringType →
      List FieldError × Option (List String × Int × Option IntOrStringType)
  | [], _, seen, sum, ft => ([], some (seen, sum, ft))
  | s :: rest, i, seen, sum, ft =>
    match maxReplicasStep ws s.maxReplicas sum ft with
    | StepResult.stop msg =>
      (subsetBaseErrs structural ops tmpl fldPath i seen s
        ++ [mkInvalid ((fldPath.index i).child "maxReplicas") msg], none)
    | StepResult.cont sum' ft' =>
      let r := subsetsLoop structural ops ws tmpl fldPath rest (i + 1)
        (seenInsert seen s) sum' ft'
      (subsetBaseErrs structural ops tmpl fldPath i seen s ++ r.1, r.2)

/-- `validateWorkloadSpreadSubsets`: an empty subset list is Required;
otherwise the loop runs, and when it completes, the final percentage-sum
rule fires on the FIRST subset's `maxReplicas` field if the fixed type is
percentage, the sum stayed below 100 and the last subset's `MaxReplicas`
is set. -/
def validateWorkloadSpreadSubsets
    (structural : Nat → WorkloadSpreadSubset → List FieldError) (ops : PatchOps)
    (ws : WorkloadSpread) (tmpl : Option RawBytes)
    (subsets : List WorkloadSpreadSubset) (fldPath : FieldPath) : List FieldError :=
  if subsets.isEmpty then
    [mkRequired fldPath "subsets number must >= 1 in WorkloadSpread"]
  else
    match subsetsLoop structural ops ws tmpl fldPath subsets 0 [] 0 none with
    | (errs, none) => errs
    | (errs, some (_, sum, ft)) =>
      if ft = some IntOrStringType.str ∧ sum < 100 ∧ lastMaxReplicasSet subsets then
        errs ++ [mkInvalid ((fldPath.index 0).child "maxReplicas")
          "maxReplicas sum of all subsets must equal 100% when type is specified as percent"]
      else errs

/-- `MaxScheduledFailedDuration = 300 * time.Second`, in seconds. -/
def MaxScheduledFailedDurationSeconds : Int := 300

/-- `math.MaxInt32`. -/
def maxInt32 : Int := 2147483647

/-- `allowedMaxSeconds` of the adaptive block: with more than one subset,
`int32(MaxScheduledFailedDuration.Seconds()-5) / int32(len(subsets)-1)`
(truncating division of the non-negative 295), otherwise `math.MaxInt32`. -/
def allowedMaxSecondsFor (n : Nat) : Int :=
  if n > 1 then (MaxScheduledFailedDurationSeconds - 5) / ((n : Int) - 1)
  else maxInt32

/-- The scheduleStrategy block of `validateWorkloadSpreadSpec` (source
lines 186-216), in source order: the type whitelisting check, then —
whenever an adaptive configuration is present, regardless of the declared
type — the type-must-be-adaptive check, the last-subset-maxReplicas
check, and the `RescheduleCriticalSeconds` range check. -/
def validateScheduleStrategy (spec : WorkloadSpreadSpec) (fldPath : FieldPath) :
    List FieldError :=
  (if spec.scheduleStrategy.type ≠ "" ∧ spec.scheduleStrategy.type ≠ "Fixed" ∧
      spec.scheduleStrategy.type ≠ "Adaptive" then
    [mkInvalid ((fldPath.child "scheduleStrategy").child "type")
      "ScheduleStrategy's type is not valid"]
  else [])
  ++ (match spec.scheduleStrategy.adaptive with
      | none => []
      | some ad =>
        (if spec.scheduleStrategy.type ≠ "Adaptive" then
          [mkInvalid ((fldPath.child "scheduleStrategy").child "type")
            "the scheduleStrategy's type must be adaptive when using adaptive scheduleStrategy"]
        else [])
        ++ (if spec.subsets.length > 1 ∧ lastMaxReplicasSet spec.subsets then
          [mkInvalid ((fldPath.child "scheduleStrategy").child "adaptive")
            "the last subset's maxReplicas must be not specified when using adaptive scheduleStrategy"]
        else [])
        ++ (match ad.rescheduleCriticalSeconds with
            | none => []
            | some r =>
              if r < 0 ∨ r > allowedMaxSecondsFor spec.subsets.length then
                [mkInvalid (((fldPath.child "scheduleStrategy").child "adaptive").child
                    "rescheduleCriticalSeconds")
                  ("rescheduleCriticalSeconds < 0 or rescheduleCriticalSeconds > "
                    ++ toString (allowedMaxSecondsFor spec.subsets.length)
                    ++ " is not permitted")]
              else []))

/-- `configuration.CustomWorkloadWhiteList` entry: a permitted
{group, kind} pair. -/
structure GroupKind where
  group : String
  kind : String
deriving DecidableEq, Repr

/-- The external collaborators of `validateWorkloadSpreadSpec`:
* `get kind ns name` is the typed `h.Client.Get` for the workload of the
  given recognized kind — `some bytes` when the fetch succeeded, carrying
  the JSON serialization of the workload's derived pod template (the
  per-kind template extraction plus volume-claim synthesis of source
  lines 302-317, folded into the fetched value since no claim depends on
  the derivation itself), `none` on any fetch error including not-found;
* `whiteList` is `configuration.GetWSWatchCustomWorkloadWhiteList`;
* `structural` aggregates the delegated scheduling-constraint validators
  for subset `i` (source lines 261-296);
* `patchOps` are the patch-simulation collaborators;
* `parseSelector` is `metav1.LabelSelectorAsSelector`, `some errMsg` on
  failure. -/
structure SpecEnv where
  get : String → String → String → Option RawBytes
  whiteList : Except String (List GroupKind)
  structural : Nat → WorkloadSpreadSubset → List FieldError
  patchOps : PatchOps
  parseSelector : String → Option String

/-- The kinds of the fixed `switch spec.TargetReference.Kind` cases. -/
def recognizedKinds : List String :=
  ["CloneSet", "Deployment", "ReplicaSet", "Job", "StatefulSet"]

/-- The expected groups each fixed switch case passes to
`verifyGroupKind` (the StatefulSet case accepts the kubernetes group and
the two kruise StatefulSet groups, which coincide). -/
def recognizedGroups : String → List String
  | "CloneSet" => ["apps.kruise.io"]
  | "Deployment" => ["apps"]
  | "ReplicaSet" => ["apps"]
  | "Job" => ["batch"]
  | "StatefulSet" => ["apps", "apps.kruise.io", "apps.kruise.io"]
  | _ => []

/-- `ok, _ := verifyGroupKind(...)` as used by the whitelist scan: the
error is discarded, so a parse failure counts as not matching. -/
def vgkOk (ref : TargetReference) (kind : String) (groups : List String) : Bool :=
  match verifyGroupKind ref kind groups with
  | Except.ok b => b
  | Except.error _ => false

/-- One fixed switch case of the targetRef validation: `verifyGroupKind`
with the case's kind and groups (a failure or a false answer is a
kind-specific Invalid error), then a best-effort fetch whose failure is
silently tolerated. -/
def resolveBuiltin (env : SpecEnv) (ns : String) (r : TargetReference)
    (fldPath : FieldPath) : List FieldError × Option RawBytes :=
  match verifyGroupKind r r.kind (recognizedGroups r.kind) with
  | Except.ok true => ([], env.get r.kind ns r.name)
  | _ =>
    ([mkInvalid (fldPath.child "targetRef")
      ("TargetReference is not valid for " ++ r.kind ++ ".")], none)

/-- The targetRef block of `validateWorkloadSpreadSpec` (source lines
104-180): required-ness, the emptiness check, the fixed kind switch, and
the dynamic whitelist fallback (whose matches never fetch a template). -/
def resolveTargetRef (env : SpecEnv) (ns : String) (ref : Option TargetReference)
    (fldPath : FieldPath) : List FieldError × Option RawBytes :=
  match ref with
  | none =>
    ([mkRequired (fldPath.child "targetRef") "no targetRef defined in WorkloadSpread"], none)
  | some r =>
    if r.apiVersion = "" ∨ r.name = "" ∨ r.kind = "" then
      ([mkInvalid (fldPath.child "targetRef")
        "empty TargetReference is not valid for WorkloadSpread."], none)
    else if recognizedKinds.contains r.kind then
      resolveBuiltin env ns r fldPath
    else
      match env.whiteList with
      | Except.error e => ([mkInternalError (fldPath.child "targetRef") e], none)
      | Except.ok wl =>
        if wl.any fun gk => vgkOk r gk.kind [gk.group] then ([], none)
        else
          ([mkInvalid (fldPath.child "targetRef")
            "TargetReference's GroupKind is not permitted."], none)

/-- `validateWorkloadSpreadSpec`: targetRef resolution, subset validation
(fed the resolved template), the scheduleStrategy block, and the
targetFilter selector check, with all errors accumulated in source
order. -/
def validateWorkloadSpreadSpec (env : SpecEnv) (ws : WorkloadSpread)
    (fldPath : FieldPath) : List FieldError :=
  let r := resolveTargetRef env ws.ns ws.spec.targetReference fldPath
  r.1
  ++ validateWorkloadSpreadSubsets env.structural env.patchOps ws r.2
      ws.spec.subsets (fldPath.child "subsets")
  ++ validateScheduleStrategy ws.spec fldPath
  ++ (match ws.spec.targetFilter with
      | none => []
      | some tf =>
        match env.parseSelector tf.selector with
        | some e => [mkInvalid (fldPath.child "targetFilter") e]
        | none => [])

/-- `validateWorkloadSpreadConflict`: scan the sibling list, skip
same-name entries, and return a single Invalid error naming the first
sibling whose target reference has the same parsed group, kind and name
— the `return allErrs` stops the scan there. -/
def validateWorkloadSpreadConflict (ws : WorkloadSpread)
    (others : List WorkloadSpread) (fldPath : FieldPath) : List FieldError :=
  match others with
  | [] => []
  | other :: rest =>
    if other.name = ws.name then validateWorkloadSpreadConflict ws rest fldPath
    else
      match ws.spec.targetReference, other.spec.targetReference with
      | some t1, some t2 =>
        if parsedGroup t1.apiVersion = parsedGroup t2.apiVersion ∧
            t1.kind = t2.kind ∧ t1.name = t2.name then
          [mkInvalid (fldPath.child "targetRef")
            ("ws.spec.targetRef is in conflict with other WorkloadSpread " ++ other.name)]
        else validateWorkloadSpreadConflict ws rest fldPath
      | _, _ => validateWorkloadSpreadConflict ws rest fldPath

/-- `validateWorkloadSpreadTargetRefUpdate`: only when both the new and
the old reference are present, any difference in parsed group, kind or
name is Invalid. -/
def validateWorkloadSpreadTargetRefUpdate (targetRef oldTargetRef : Option TargetReference)
    (fldPath : FieldPath) : List FieldError :=
  match targetRef, oldTargetRef with
  | some t, some o =>
    if parsedGroup t.apiVersion ≠ parsedGroup o.apiVersion ∨
        t.kind ≠ o.kind ∨ t.name ≠ o.name then
      [mkInvalid (fldPath.child "targetRef")
        "change TargetReference is not permitted for WorkloadSpread"]
    else []
  | _, _ => []

/-- Spec-side description: the type of the first non-nil `MaxReplicas`
in a subset list — the type the whole list must share. -/
def firstMRType (l : List WorkloadSpreadSubset) : Option IntOrStringType :=
  ((l.filterMap fun s => s.maxReplicas).head?).map fun m => m.type

/-- The value a `MaxReplicas` resolves to against a base of 100 (0 when
resolution fails; only used where resolution is known to succeed). -/
def percentVal (m : IntOrString) : Int :=
  match GetValueFromIntOrPercent m 100 with
  | Except.ok v => v
  | Except.error _ => 0

/-- The contribution of one subset's `MaxReplicas` to the running
percentage sum: percent-typed values contribute their resolved value,
integer-typed and absent values contribute nothing. -/
def mrContribution (mr : Option IntOrString) : Int :=
  match mr with
  | some m => if m.type = IntOrStringType.str then percentVal m else 0
  | none => 0

/-- Spec-side description: the total percentage claimed by a subset
list. -/
def percentSum : List WorkloadSpreadSubset → Int
  | [] => 0
  | s :: rest => mrContribution s.maxReplicas + percentSum rest

/-- Spec-side description: two (possibly absent) target references point
at the same workload when both are present and agree in parsed group,
kind and name — the API version is ignored. -/
def refMatches (a b : Option TargetReference) : Prop :=
  match a, b with
  | some t1, some t2 =>
    parsedGroup t1.apiVersion = parsedGroup t2.apiVersion ∧
      t1.kind = t2.kind ∧ t1.name = t2.name
  | _, _ => False

instance (a b : Option TargetReference) : Decidable (refMatches a b) :=
  match a, b with
  | some t1, some t2 =>
    inferInstanceAs (Decidable (parsedGroup t1.apiVersion = parsedGroup t2.apiVersion ∧
      t1.kind = t2.kind ∧ t1.name = t2.name))
  | none, none => inferInstanceAs (Decidable False)
  | none, some _ => inferInstanceAs (Decidable False)
  | some _, none => inferInstanceAs (Decidable False)

/-- Spec-side description of a conflicting sibling: a different name and
a target reference pointing at the candidate's target. -/
def conflictsWithCandidate (ws other : WorkloadSpread) : Bool :=
  decide (other.name ≠ ws.name ∧
    refMatches ws.spec.targetReference other.spec.targetReference)

/-- Spec-side description: the first conflicting sibling in scan order. -/
def firstConflicting (ws : WorkloadSpread) (others : List WorkloadSpread) :
    Option WorkloadSpread :=
  others.find? (conflictsWithCandidate ws)

theorem fieldPath_append_inj (p : FieldPath) (l₁ l₂ : List FieldPathElem) :
    p ++ l₁ = p ++ l₂ ↔ l₁ = l₂ := by
  induction p with
  | nil => simp
  | cons a p ih => simp [ih]

theorem firstMRType_cons (s : WorkloadSpreadSubset) (rest : List WorkloadSpreadSubset) :
    firstMRType (s :: rest) =
      (match s.maxReplicas with
       | some m => some m.type
       | none => firstMRType rest) := by
  cases h : s.maxReplicas <;> simp [firstMRType, List.filterMap_cons, h]

theorem maxReplicasArith_cont (ws : WorkloadSpread) (m : IntOrString) (sum : Int)
    (ft : Option IntOrStringType) (sum' : Int) (ft' : Option IntOrStringType)
    (h : maxReplicasArith ws m sum ft = StepResult.cont sum' ft') :
    ft' = ft ∧
      sum' = sum + (if m.type = IntOrStringType.str then percentVal m else 0) ∧
      (sum ≤ 100 → sum' ≤ 100) := by
  unfold maxReplicasArith at h
  split at h
  · exact absurd h (by simp)
  · cases hg : GetValueFromIntOrPercent m 100 with
    | error e => rw [hg] at h; exact absurd h (by simp)
    | ok v =>
      rw [hg] at h
      simp only [] at h
      split at h
      · exact absurd h (by simp)
      · split at h
        case isTrue hstr =>
          split at h
          · exact absurd h (by simp)
          case isFalse hle =>
            cases h
            refine ⟨rfl, ?_, fun _ => by omega⟩
            simp [hstr, percentVal, hg]
        case isFalse hstr =>
          cases h
          exact ⟨rfl, by simp [hstr], fun hs => hs⟩

theorem maxReplicasStep_cont (ws : WorkloadSpread) (mr : Option IntOrString)
    (sum : Int) (ft : Option IntOrStringType) (sum' : Int) (ft' : Option IntOrStringType)
    (h : maxReplicasStep ws mr sum ft = StepResult.cont sum' ft') :
    (∀ t, ft = some t → ft' = some t) ∧
      (ft = none → ft' = (mr.map fun m => m.type)) ∧
      sum' = sum + mrContribution mr ∧
      (sum ≤ 100 → sum' ≤ 100) := by
  cases mr with
  | none =>
    simp only [maxReplicasStep] at h
    cases h
    exact ⟨fun t ht => ht, fun ht => by simp [ht], by simp [mrContribution], fun hs => hs⟩
  | some m =>
    cases ft with
    | none =>
      simp only [maxReplicasStep] at h
      have ha := maxReplicasArith_cont ws m sum (some m.type) sum' ft' h
      exact ⟨fun t ht => Option.noConfusion ht, fun _ => by simp [ha.1],
        by simpa [mrContribution] using ha.2.1, ha.2.2⟩
    | some t =>
      simp only [maxReplicasStep] at h
      split at h
      · exact absurd h (by simp)
      · have ha := maxReplicasArith_cont ws m sum (some t) sum' ft' h
        refine ⟨fun u hu => ?_, fun hn => Option.noConfusion hn,
          by simpa [mrContribution] using ha.2.1, ha.2.2⟩
        cases hu
        exact ha.1

theorem subsetsLoop_append (structural : Nat → WorkloadSpreadSubset → List FieldError)
    (ops : PatchOps) (ws : WorkloadSpread) (tmpl : Option RawBytes) (fldPath : FieldPath)
    (l₁ l₂ : List WorkloadSpreadSubset) :
    ∀ (i : Nat) (seen : List String) (sum : Int) (ft : Option IntOrStringType),
      subsetsLoop structural ops ws tmpl fldPath (l₁ ++ l₂) i seen sum ft =
        (match subsetsLoop structural ops ws tmpl fldPath l₁ i seen sum ft with
         | (errs, none) => (errs, none)
         | (errs, some st) =>
           ((errs ++ (subsetsLoop structural ops ws tmpl fldPath l₂ (i + l₁.length)
              st.1 st.2.1 st.2.2).1,
             (subsetsLoop structural ops ws tmpl fldPath l₂ (i + l₁.length)
              st.1 st.2.1 st.2.2).2))) := by
  induction l₁ with
  | nil =>
    intro i seen sum ft
    simp [subsetsLoop]
  | cons s rest ih =>
    intro i seen sum ft
    simp only [List.cons_append, subsetsLoop]
    cases hstep : maxReplicasStep ws s.maxReplicas sum ft with
    | stop msg => simp
    | cont sum' ft' =>
      simp only [List.append_eq]
      rw [ih (i + 1) (seenInsert seen s) sum' ft']
      have hidx : i + 1 + rest.length = i + (s :: rest).length := by
        simp [List.length_cons]; omega
      rw [hidx]
      cases hrest : subsetsLoop structural ops ws tmpl fldPath rest (i + 1)
          (seenInsert seen s) sum' ft' with
      | mk errs fin =>
        cases fin with
        | none => simp
        | some st => simp [List.append_assoc]

theorem subsetsLoop_complete (structural : Nat → WorkloadSpreadSubset → List FieldError)
    (ops : PatchOps) (ws : WorkloadSpread) (tmpl : Option RawBytes) (fldPath : FieldPath)
    (l : List WorkloadSpreadSubset) :
    ∀ (i : Nat) (seen : List String) (sum : Int) (ft : Option IntOrStringType)
      (errs : List FieldError) (seen' : List String) (sum' : Int)
      (ft' : Option IntOrStringType),
      subsetsLoop structural ops ws tmpl fldPath l i seen sum ft
        = (errs, some (seen', sum', ft')) →
      (∀ t, ft = some t → ft' = some t) ∧
        (ft = none → ft' = firstMRType l) ∧
        sum' = sum + percentSum l ∧
        (sum ≤ 100 → sum' ≤ 100) := by
  induction l with
  | nil =>
    intro i seen sum ft errs seen' sum' ft' h
    simp only [subsetsLoop, Prod.mk.injEq, Option.some.injEq] at h
    obtain ⟨-, h2, h3, h4⟩ := h
    subst h2; subst h3; subst h4
    exact ⟨fun t ht => ht, fun ht => by simp [ht, firstMRType],
      by simp [percentSum], fun hs => hs⟩
  | cons s rest ih =>
    intro i seen sum ft errs seen' sum' ft' h
    simp only [subsetsLoop] at h
    cases hstep : maxReplicasStep ws s.maxReplicas sum ft with
    | stop msg => rw [hstep] at h; simp at h
    | cont sum₁ ft₁ =>
      rw [hstep] at h
      simp only [] at h
      have h2 := congrArg Prod.snd h
      simp only [] at h2
      have hpair : subsetsLoop structural ops ws tmpl fldPath rest (i + 1)
          (seenInsert seen s) sum₁ ft₁
          = ((subsetsLoop structural ops ws tmpl fldPath rest (i + 1)
              (seenInsert seen s) sum₁ ft₁).1, some (seen', sum', ft')) :=
        Prod.ext rfl h2
      have hr := ih (i + 1) (seenInsert seen s) sum₁ ft₁ _ seen' sum' ft' hpair
      have hs := maxReplicasStep_cont ws s.maxReplicas sum ft sum₁ ft₁ hstep
      refine ⟨?_, ?_, ?_, fun hle => hr.2.2.2 (hs.2.2.2 hle)⟩
      · intro t ht
        exact hr.1 t (hs.1 t ht)
      · intro ht
        rw [firstMRType_cons]
        have hft₁ := hs.2.1 ht
        cases hmr : s.maxReplicas with
        | none =>
          rw [hmr] at hft₁
          simp at hft₁
          simp only []
          exact hr.2.1 hft₁
        | some m =>
          rw [hmr] at hft₁
          simp at hft₁
          simp only []
          exact hr.1 m.type hft₁
      · have ha := hr.2.2.1
        have hb := hs.2.2.1
        simp only [percentSum]
        omega

theorem subsetsLoop_tmpl_none (structural : Nat → WorkloadSpreadSubset → List FieldError)
    (ops₁ ops₂ : PatchOps) (ws : WorkloadSpread) (fldPath : FieldPath)
    (l : List WorkloadSpreadSubset) :
    ∀ (i : Nat) (seen : List String) (sum : Int) (ft : Option IntOrStringType),
      subsetsLoop structural ops₁ ws none fldPath l i seen sum ft =
        subsetsLoop structural ops₂ ws none fldPath l i seen sum ft := by
  induction l with
  | nil => intro i seen sum ft; simp [subsetsLoop]
  | cons s rest ih =>
    intro i seen sum ft
    have hbase : subsetBaseErrs structural ops₁ none fldPath i seen s
        = subsetBaseErrs structural ops₂ none fldPath i seen s := by
      cases h : s.patchRaw <;> simp [subsetBaseErrs, h]
    simp only [subsetsLoop]
    cases maxReplicasStep ws s.maxReplicas sum ft with
    | stop msg => simp only []; rw [hbase]
    | cont sum' ft' =>
      simp only []
      rw [hbase, ih (i + 1) (seenInsert seen s) sum' ft']

theorem scheduleStrategy_embedded (env : SpecEnv) (ws : WorkloadSpread) (p : FieldPath) :
    ∃ a b, validateWorkloadSpreadSpec env ws p =
      a ++ validateScheduleStrategy ws.spec p ++ b := by
  refine ⟨(resolveTargetRef env ws.ns ws.spec.targetReference p).1 ++
      validateWorkloadSpreadSubsets env.structural env.patchOps ws
        (resolveTargetRef env ws.ns ws.spec.targetReference p).2 ws.spec.subsets
        (p.child "subsets"),
    (match ws.spec.targetFilter with
     | none => []
     | some tf =>
       match env.parseSelector tf.selector with
       | some e => [mkInvalid (p.child "targetFilter") e]
       | none => []), ?_⟩
  simp [validateWorkloadSpreadSpec, List.append_assoc]

/-- Claim C7: conflict detection skips siblings bearing the candidate's
own name, reports a conflict exactly when a sibling's target reference
has equal parsed group, kind and name (the API version is ignored), and
on the first such conflict emits a single Invalid error naming that
sibling and stops scanning — the result is the error for the first
conflicting sibling in scan order, or nothing, so at most one conflict
error is ever returned. -/
theorem conflict_detection_first_match (ws : WorkloadSpread)
    (others : List WorkloadSpread) (fldPath : FieldPath) :
    validateWorkloadSpreadConflict ws others fldPath =
      (match firstConflicting ws others with
       | none => []
       | some other => [mkInvalid (fldPath.child "targetRef")
           ("ws.spec.targetRef is in conflict with other WorkloadSpread " ++ other.name)]) ∧
    (validateWorkloadSpreadConflict ws others fldPath).length ≤ 1 := by
  have main : ∀ (l : List WorkloadSpread),
      validateWorkloadSpreadConflict ws l fldPath =
        (match firstConflicting ws l with
         | none => []
         | some other => [mkInvalid (fldPath.child "targetRef")
             ("ws.spec.targetRef is in conflict with other WorkloadSpread " ++ other.name)]) := by
    intro l
    induction l with
    | nil => rfl
    | cons o rest ih =>
      by_cases hname : o.name = ws.name
      · have hc : conflictsWithCandidate ws o = false := by
          simp [conflictsWithCandidate, hname]
        simp only [validateWorkloadSpreadConflict, firstConflicting, List.find?, hc,
          if_pos hname]
        exact ih
      · cases hws : ws.spec.targetReference with
        | none =>
          have hc : conflictsWithCandidate ws o = false := by
            cases ho : o.spec.targetReference <;>
              simp [conflictsWithCandidate, refMatches, hws, ho]
          simp only [validateWorkloadSpreadConflict, firstConflicting, List.find?, hc,
            if_neg hname, hws]
          cases ho : o.spec.targetReference <;> exact ih
        | some t1 =>
          cases ho : o.spec.targetReference with
          | none =>
            have hc : conflictsWithCandidate ws o = false := by
              simp [conflictsWithCandidate, refMatches, hws, ho]
            simp only [validateWorkloadSpreadConflict, firstConflicting, List.find?, hc,
              if_neg hname, hws, ho]
            exact ih
          | some t2 =>
            by_cases hcond : parsedGroup t1.apiVersion = parsedGroup t2.apiVersion ∧
                t1.kind = t2.kind ∧ t1.name = t2.name
            · have hc : conflictsWithCandidate ws o = true := by
                simp [conflictsWithCandidate, refMatches, hws, ho, hname, hcond]
              simp only [validateWorkloadSpreadConflict, firstConflicting, List.find?, hc,
                if_neg hname, hws, ho, if_pos hcond]
            · have hc : conflictsWithCandidate ws o = false := by
                simp only [conflictsWithCandidate, refMatches, hws, ho,
                  decide_eq_false_iff_not]
                intro hand
                exact hcond hand.2
              simp only [validateWorkloadSpreadConflict, firstConflicting, List.find?, hc,
                if_neg hname, hws, ho, if_neg hcond]
              exact ih
  refine ⟨main others, ?_⟩
  rw [main others]
  cases firstConflicting ws others <;> simp

/-- Claim C8: when both the old and the new target reference are present,
the update check produces no error exactly when parsed group, kind and
name all agree, and any disagreement produces the single Invalid
"change is not permitted" error on the targetRef field. -/
theorem targetRefUpdate_immutable (t o : TargetReference) (p : FieldPath) :
    (validateWorkloadSpreadTargetRefUpdate (some t) (some o) p = [] ↔
      (parsedGroup t.apiVersion = parsedGroup o.apiVersion ∧
        t.kind = o.kind ∧ t.name = o.name)) ∧
    ((parsedGroup t.apiVersion ≠ parsedGroup o.apiVersion ∨
        t.kind ≠ o.kind ∨ t.name ≠ o.name) →
      validateWorkloadSpreadTargetRefUpdate (some t) (some o) p =
        [mkInvalid (p.child "targetRef")
          "change TargetReference is not permitted for WorkloadSpread"]) := by
  have hred : validateWorkloadSpreadTargetRefUpdate (some t) (some o) p =
      (if parsedGroup t.apiVersion ≠ parsedGroup o.apiVersion ∨
          t.kind ≠ o.kind ∨ t.name ≠ o.name then
        [mkInvalid (p.child "targetRef")
          "change TargetReference is not permitted for WorkloadSpread"]
      else []) := rfl
  rw [hred]
  constructor
  · split
    case isTrue hcond =>
      constructor
      · intro h; exact absurd h (by simp)
      · intro hc
        rcases hcond with h | h | h
        · exact absurd hc.1 h
        · exact absurd hc.2.1 h
        · exact absurd hc.2.2 h
    case isFalse hcond =>
      push_neg at hcond
      simp [hcond.1, hcond.2.1, hcond.2.2]
  · intro hcond
    rw [if_pos hcond]

/-- Claim C10: the target-reference immutability check is engaged only
when both references are present — removing or adding the reference
entirely yields no error from this check. -/
theorem targetRefUpdate_nil_skip (t : Option TargetReference) (p : FieldPath) :
    validateWorkloadSpreadTargetRefUpdate none t p = [] ∧
      validateWorkloadSpreadTargetRefUpdate t none p = [] := by
  cases t <;> exact ⟨rfl, rfl⟩

theorem mem_ite_single (c : Prop) [Decidable c] (e x : FieldError) :
    (x ∈ if c then [e] else []) ↔ c ∧ x = e := by
  split <;> simp_all

theorem child_ne_of_name_ne (p : FieldPath) (s1 s2 : String) (h : s1 ≠ s2) :
    p.child s1 ≠ p.child s2 := by
  simp only [FieldPath.child, ne_eq, fieldPath_append_inj]
  simp [h]

theorem child_ne_deeper (p : FieldPath) (s1 s2 s3 : String) :
    p.child s1 ≠ (p.child s2).child s3 := by
  simp only [FieldPath.child, List.append_assoc, ne_eq, fieldPath_append_inj]
  simp

/-- Claim C5: whenever an adaptive configuration is present, an Invalid
error on the scheduleStrategy type field is emitted exactly when the
declared type is not Adaptive, and an Invalid error on the
scheduleStrategy adaptive field is emitted exactly when more than one
subset exists and the last subset specifies MaxReplicas; the whole
scheduleStrategy block appears verbatim inside full spec validation. -/
theorem adaptive_strategy_checks (spec : WorkloadSpreadSpec) (p : FieldPath)
    (ad : AdaptiveWorkloadSpreadStrategy)
    (had : spec.scheduleStrategy.adaptive = some ad) :
    ((∃ d, mkInvalid ((p.child "scheduleStrategy").child "type") d
        ∈ validateScheduleStrategy spec p) ↔ spec.scheduleStrategy.type ≠ "Adaptive") ∧
    ((∃ d, mkInvalid ((p.child "scheduleStrategy").child "adaptive") d
        ∈ validateScheduleStrategy spec p) ↔
      (spec.subsets.length > 1 ∧ lastMaxReplicasSet spec.subsets)) ∧
    (∀ env ws, ws.spec = spec →
      ∃ a b, validateWorkloadSpreadSpec env ws p =
        a ++ validateScheduleStrategy spec p ++ b) := by
  have hTA : ((p.child "scheduleStrategy").child "type")
      ≠ ((p.child "scheduleStrategy").child "adaptive") :=
    child_ne_of_name_ne _ _ _ (by decide)
  have hTR : ((p.child "scheduleStrategy").child "type")
      ≠ (((p.child "scheduleStrategy").child "adaptive").child "rescheduleCriticalSeconds") :=
    child_ne_deeper _ _ _ _
  have hAR : ((p.child "scheduleStrategy").child "adaptive")
      ≠ (((p.child "scheduleStrategy").child "adaptive").child "rescheduleCriticalSeconds") :=
    child_ne_deeper _ _ _ _
  have hout : validateScheduleStrategy spec p =
      (if spec.scheduleStrategy.type ≠ "" ∧ spec.scheduleStrategy.type ≠ "Fixed" ∧
          spec.scheduleStrategy.type ≠ "Adaptive" then
        [mkInvalid ((p.child "scheduleStrategy").child "type")
          "ScheduleStrategy's type is not valid"]
      else [])
      ++ ((if spec.scheduleStrategy.type ≠ "Adaptive" then
        [mkInvalid ((p.child "scheduleStrategy").child "type")
          "the scheduleStrategy's type must be adaptive when using adaptive scheduleStrategy"]
      else [])
      ++ (if spec.subsets.length > 1 ∧ lastMaxReplicasSet spec.subsets then
        [mkInvalid ((p.child "scheduleStrategy").child "adaptive")
          "the last subset's maxReplicas must be not specified when using adaptive scheduleStrategy"]
      else [])
      ++ (match ad.rescheduleCriticalSeconds with
          | none => []
          | some r =>
            if r < 0 ∨ r > allowedMaxSecondsFor spec.subsets.length then
              [mkInvalid (((p.child "scheduleStrategy").child "adaptive").child
                  "rescheduleCriticalSeconds")
                ("rescheduleCriticalSeconds < 0 or rescheduleCriticalSeconds > "
                  ++ toString (allowedMaxSecondsFor spec.subsets.length)
                  ++ " is not permitted")]
            else [])) := by
    simp only [validateScheduleStrategy, had]
  refine ⟨?_, ?_, fun env ws hws => by rw [← hws]; exact scheduleStrategy_embedded env ws p⟩
  · by_cases h2 : spec.scheduleStrategy.type = "Adaptive"
    · have hc1 : ¬(spec.scheduleStrategy.type ≠ "" ∧ spec.scheduleStrategy.type ≠ "Fixed" ∧
          spec.scheduleStrategy.type ≠ "Adaptive") := fun hc => hc.2.2 h2
      rw [hout, if_neg hc1, if_neg (fun hc => hc h2)]
      simp only [List.nil_append]
      refine iff_of_false ?_ (fun hne => hne h2)
      rintro ⟨d, hd⟩
      rcases List.mem_append.mp hd with h | h
      · rcases (mem_ite_single _ _ _).mp h with ⟨-, heq⟩
        exact hTA (congrArg FieldError.path heq)
      · cases hrc : ad.rescheduleCriticalSeconds with
        | none => rw [hrc] at h; exact absurd h (by simp)
        | some r =>
          rw [hrc] at h
          rcases (mem_ite_single _ _ _).mp h with ⟨-, heq⟩
          exact hTR (congrArg FieldError.path heq)
    · refine iff_of_true ?_ h2
      refine ⟨"the scheduleStrategy's type must be adaptive when using adaptive scheduleStrategy", ?_⟩
      rw [hout]
      exact List.mem_append.mpr (Or.inr (List.mem_append.mpr (Or.inl
        (List.mem_append.mpr (Or.inl ((mem_ite_single _ _ _).mpr ⟨h2, rfl⟩))))))
  · by_cases h3 : spec.subsets.length > 1 ∧ lastMaxReplicasSet spec.subsets
    · refine iff_of_true ?_ h3
      refine ⟨"the last subset's maxReplicas must be not specified when using adaptive scheduleStrategy", ?_⟩
      rw [hout]
      exact List.mem_append.mpr (Or.inr (List.mem_append.mpr (Or.inl
        (List.mem_append.mpr (Or.inr ((mem_ite_single _ _ _).mpr ⟨h3, rfl⟩))))))
    · refine iff_of_false ?_ h3
      rintro ⟨d, hd⟩
      rw [hout] at hd
      rcases List.mem_append.mp hd with h | h
      · rcases (mem_ite_single _ _ _).mp h with ⟨-, heq⟩
        exact (Ne.symm hTA) (congrArg FieldError.path heq)
      · rcases List.mem_append.mp h with h | h
        · rcases List.mem_append.mp h with h | h
          · rcases (mem_ite_single _ _ _).mp h with ⟨-, heq⟩
            exact (Ne.symm hTA) (congrArg FieldError.path heq)
          · rcases (mem_ite_single _ _ _).mp h with ⟨hc, -⟩
            exact h3 hc
        · cases hrc : ad.rescheduleCriticalSeconds with
          | none => rw [hrc] at h; exact absurd h (by simp)
          | some r =>
            rw [hrc] at h
            rcases (mem_ite_single _ _ _).mp h with ⟨-, heq⟩
            exact hAR (congrArg FieldError.path heq)

/-- Claim C6: with an adaptive configuration and a set
RescheduleCriticalSeconds, an Invalid error on the
rescheduleCriticalSeconds field is emitted exactly when the value lies
outside the interval from 0 to allowedMax, where allowedMax is the
truncated quotient (300 - 5) / (subsetCount - 1) for more than one
subset and INT32_MAX otherwise; in particular -1 always fails, and the
block appears verbatim inside full spec validation. -/
theorem reschedule_seconds_range (spec : WorkloadSpreadSpec) (p : FieldPath)
    (ad : AdaptiveWorkloadSpreadStrategy) (r : Int)
    (had : spec.scheduleStrategy.adaptive = some ad)
    (hrc : ad.rescheduleCriticalSeconds = some r) :
    ((∃ d, mkInvalid (((p.child "scheduleStrategy").child "adaptive").child
        "rescheduleCriticalSeconds") d ∈ validateScheduleStrategy spec p) ↔
      (r < 0 ∨ r > allowedMaxSecondsFor spec.subsets.length)) ∧
    (r = -1 → ∃ d, mkInvalid (((p.child "scheduleStrategy").child "adaptive").child
        "rescheduleCriticalSeconds") d ∈ validateScheduleStrategy spec p) ∧
    allowedMaxSecondsFor spec.subsets.length =
      (if spec.subsets.length > 1 then
        (MaxScheduledFailedDurationSeconds - 5) / ((spec.subsets.length : Int) - 1)
      else maxInt32) ∧
    (∀ env ws, ws.spec = spec →
      ∃ a b, validateWorkloadSpreadSpec env ws p =
        a ++ validateScheduleStrategy spec p ++ b) := by
  have hTR : ((p.child "scheduleStrategy").child "type")
      ≠ (((p.child "scheduleStrategy").child "adaptive").child "rescheduleCriticalSeconds") :=
    child_ne_deeper _ _ _ _
  have hAR : ((p.child "scheduleStrategy").child "adaptive")
      ≠ (((p.child "scheduleStrategy").child "adaptive").child "rescheduleCriticalSeconds") :=
    child_ne_deeper _ _ _ _
  have hout : validateScheduleStrategy spec p =
      (if spec.scheduleStrategy.type ≠ "" ∧ spec.scheduleStrategy.type ≠ "Fixed" ∧
          spec.scheduleStrategy.type ≠ "Adaptive" then
        [mkInvalid ((p.child "scheduleStrategy").child "type")
          "ScheduleStrategy's type is not valid"]
      else [])
      ++ ((if spec.scheduleStrategy.type ≠ "Adaptive" then
        [mkInvalid ((p.child "scheduleStrategy").child "type")
          "the scheduleStrategy's type must be adaptive when using adaptive scheduleStrategy"]
      else [])
      ++ (if spec.subsets.length > 1 ∧ lastMaxReplicasSet spec.subsets then
        [mkInvalid ((p.child "scheduleStrategy").child "adaptive")
          "the last subset's maxReplicas must be not specified when using adaptive scheduleStrategy"]
      else [])
      ++ (if r < 0 ∨ r > allowedMaxSecondsFor spec.subsets.length then
        [mkInvalid (((p.child "scheduleStrategy").child "adaptive").child
            "rescheduleCriticalSeconds")
          ("rescheduleCriticalSeconds < 0 or rescheduleCriticalSeconds > "
            ++ toString (allowedMaxSecondsFor spec.subsets.length)
            ++ " is not permitted")]
      else [])) := by
    simp only [validateScheduleStrategy, had, hrc]
  have main : (∃ d, mkInvalid (((p.child "scheduleStrategy").child "adaptive").child
      "rescheduleCriticalSeconds") d ∈ validateScheduleStrategy spec p) ↔
      (r < 0 ∨ r > allowedMaxSecondsFor spec.subsets.length) := by
    by_cases h4 : r < 0 ∨ r > allowedMaxSecondsFor spec.subsets.length
    · refine iff_of_true ?_ h4
      refine ⟨"rescheduleCriticalSeconds < 0 or rescheduleCriticalSeconds > "
        ++ toString (allowedMaxSecondsFor spec.subsets.length) ++ " is not permitted", ?_⟩
      rw [hout]
      exact List.mem_append.mpr (Or.inr (List.mem_append.mpr (Or.inr
        ((mem_ite_single _ _ _).mpr ⟨h4, rfl⟩))))
    · refine iff_of_false ?_ h4
      rintro ⟨d, hd⟩
      rw [hout] at hd
      rcases List.mem_append.mp hd with h | h
      · rcases (mem_ite_single _ _ _).mp h with ⟨-, heq⟩
        exact (Ne.symm hTR) (congrArg FieldError.path heq)
      · rcases List.mem_append.mp h with h | h
        · rcases List.mem_append.mp h with h | h
          · rcases (mem_ite_single _ _ _).mp h with ⟨-, heq⟩
            exact (Ne.symm hTR) (congrArg FieldError.path heq)
          · rcases (mem_ite_single _ _ _).mp h with ⟨-, heq⟩
            exact (Ne.symm hAR) (congrArg FieldError.path heq)
        · rcases (mem_ite_single _ _ _).mp h with ⟨hc, -⟩
          exact h4 hc
  refine ⟨main, fun hneg => main.mpr (Or.inl (by omega)), rfl,
    fun env ws hws => by rw [← hws]; exact scheduleStrategy_embedded env ws p⟩

/-- Claim C2: when the subset loop completes (every per-subset arithmetic
check passed) on a non-empty subset list, the final percentage-sum error
on the FIRST subset's maxReplicas field is appended exactly when the
fixed type is percentage, the accumulated sum is strictly below 100 and
the last subset's MaxReplicas is set; moreover the fixed type is the
type of the first non-nil MaxReplicas and the accumulated sum is the
total of the resolved percentage values. -/
theorem percent_sum_final_rule (structural : Nat → WorkloadSpreadSubset → List FieldError)
    (ops : PatchOps) (ws : WorkloadSpread) (tmpl : Option RawBytes) (fldPath : FieldPath)
    (subsets : List WorkloadSpreadSubset) (errs₀ : List FieldError)
    (seen₀ : List String) (sum₀ : Int) (ft₀ : Option IntOrStringType)
    (hne : subsets ≠ [])
    (hloop : subsetsLoop structural ops ws tmpl fldPath subsets 0 [] 0 none
      = (errs₀, some (seen₀, sum₀, ft₀))) :
    validateWorkloadSpreadSubsets structural ops ws tmpl subsets fldPath =
      errs₀ ++ (if ft₀ = some IntOrStringType.str ∧ sum₀ < 100 ∧
          lastMaxReplicasSet subsets then
        [mkInvalid ((fldPath.index 0).child "maxReplicas")
          "maxReplicas sum of all subsets must equal 100% when type is specified as percent"]
      else []) ∧
    ft₀ = firstMRType subsets ∧ sum₀ = percentSum subsets := by
  have hc := subsetsLoop_complete structural ops ws tmpl fldPath subsets 0 [] 0 none
    errs₀ seen₀ sum₀ ft₀ hloop
  refine ⟨?_, hc.2.1 rfl, by simpa using hc.2.2.1⟩
  obtain ⟨s, rest, rfl⟩ : ∃ s rest, subsets = s :: rest := by
    cases subsets with
    | nil => exact absurd rfl hne
    | cons s rest => exact ⟨s, rest, rfl⟩
  unfold validateWorkloadSpreadSubsets
  rw [if_neg (by simp)]
  rw [hloop]
  simp only []
  split <;> simp

/-- Claim C3: a later subset whose non-nil MaxReplicas type differs from
the type fixed by the first non-nil MaxReplicas gets an Invalid error on
its maxReplicas field and validation returns the accumulated list
immediately: the output ends at that error and is entirely independent
of every subset after the offending one. -/
theorem mixed_type_early_return (structural : Nat → WorkloadSpreadSubset → List FieldError)
    (ops : PatchOps) (ws : WorkloadSpread) (tmpl : Option RawBytes) (fldPath : FieldPath)
    (pre : List WorkloadSpreadSubset) (s : WorkloadSpreadSubset)
    (post : List WorkloadSpreadSubset) (errs₀ : List FieldError)
    (seen₀ : List String) (sum₀ : Int) (t : IntOrStringType) (m : IntOrString)
    (hpre : subsetsLoop structural ops ws tmpl fldPath pre 0 [] 0 none
      = (errs₀, some (seen₀, sum₀, some t)))
    (hm : s.maxReplicas = some m) (hne : m.type ≠ t) :
    firstMRType pre = some t ∧
    validateWorkloadSpreadSubsets structural ops ws tmpl (pre ++ s :: post) fldPath
      = errs₀ ++ subsetBaseErrs structural ops tmpl fldPath pre.length seen₀ s
        ++ [mkInvalid ((fldPath.index pre.length).child "maxReplicas")
            "the maxReplicas type of all subsets must be the same"] ∧
    validateWorkloadSpreadSubsets structural ops ws tmpl (pre ++ s :: post) fldPath
      = validateWorkloadSpreadSubsets structural ops ws tmpl (pre ++ [s]) fldPath := by
  have hstep : maxReplicasStep ws s.maxReplicas sum₀ (some t)
      = StepResult.stop "the maxReplicas type of all subsets must be the same" := by
    rw [hm]
    simp only [maxReplicasStep]
    rw [if_pos hne]
  have hsingle : ∀ (l₂ : List WorkloadSpreadSubset) (i : Nat),
      subsetsLoop structural ops ws tmpl fldPath (s :: l₂) i seen₀ sum₀ (some t)
      = (subsetBaseErrs structural ops tmpl fldPath i seen₀ s
          ++ [mkInvalid ((fldPath.index i).child "maxReplicas")
              "the maxReplicas type of all subsets must be the same"], none) := by
    intro l₂ i
    simp only [subsetsLoop, hstep]
  have happ : ∀ (l₂ : List WorkloadSpreadSubset),
      subsetsLoop structural ops ws tmpl fldPath (pre ++ s :: l₂) 0 [] 0 none
      = (errs₀ ++ (subsetBaseErrs structural ops tmpl fldPath pre.length seen₀ s
          ++ [mkInvalid ((fldPath.index pre.length).child "maxReplicas")
              "the maxReplicas type of all subsets must be the same"]), none) := by
    intro l₂
    rw [subsetsLoop_append structural ops ws tmpl fldPath pre (s :: l₂) 0 [] 0 none, hpre]
    simp only [Nat.zero_add]
    rw [hsingle l₂ pre.length]
  have hv : ∀ (l₂ : List WorkloadSpreadSubset),
      validateWorkloadSpreadSubsets structural ops ws tmpl (pre ++ s :: l₂) fldPath
      = errs₀ ++ subsetBaseErrs structural ops tmpl fldPath pre.length seen₀ s
        ++ [mkInvalid ((fldPath.index pre.length).child "maxReplicas")
            "the maxReplicas type of all subsets must be the same"] := by
    intro l₂
    unfold validateWorkloadSpreadSubsets
    rw [if_neg (by simp), happ l₂]
    simp [List.append_assoc]
  have hc := subsetsLoop_complete structural ops ws tmpl fldPath pre 0 [] 0 none
    errs₀ seen₀ sum₀ (some t) hpre
  exact ⟨(hc.2.1 rfl).symm, hv post, (hv post).trans (hv []).symm⟩

/-- Claim C4: with uniformly percentage-typed MaxReplicas values (each
resolved against a base of 100 and non-negative), the subset at which
the running sum first exceeds 100 gets an Invalid error on its
maxReplicas field and validation returns there: the accumulated sum
before it never exceeded 100, and the output is independent of every
later subset. -/
theorem percent_overflow_early_return (structural : Nat → WorkloadSpreadSubset → List FieldError)
    (ops : PatchOps) (ws : WorkloadSpread) (tmpl : Option RawBytes) (fldPath : FieldPath)
    (pre : List WorkloadSpreadSubset) (s : WorkloadSpreadSubset)
    (post : List WorkloadSpreadSubset) (errs₀ : List FieldError)
    (seen₀ : List String) (sum₀ : Int) (ft₀ : Option IntOrStringType)
    (m : IntOrString) (v : Int)
    (hpre : subsetsLoop structural ops ws tmpl fldPath pre 0 [] 0 none
      = (errs₀, some (seen₀, sum₀, ft₀)))
    (hft : ft₀ = none ∨ ft₀ = some IntOrStringType.str)
    (hsts : stsTarget ws = false)
    (hm : s.maxReplicas = some m) (htype : m.type = IntOrStringType.str)
    (hres : GetValueFromIntOrPercent m 100 = Except.ok v) (hnn : 0 ≤ v)
    (hover : sum₀ + v > 100) :
    sum₀ = percentSum pre ∧ sum₀ ≤ 100 ∧
    validateWorkloadSpreadSubsets structural ops ws tmpl (pre ++ s :: post) fldPath
      = errs₀ ++ subsetBaseErrs structural ops tmpl fldPath pre.length seen₀ s
        ++ [mkInvalid ((fldPath.index pre.length).child "maxReplicas")
            "the sum of all subset's maxReplicas exceeds 100% is no permitted"] ∧
    validateWorkloadSpreadSubsets structural ops ws tmpl (pre ++ s :: post) fldPath
      = validateWorkloadSpreadSubsets structural ops ws tmpl (pre ++ [s]) fldPath := by
  have harith : ∀ ft', maxReplicasArith ws m sum₀ ft'
      = StepResult.stop "the sum of all subset's maxReplicas exceeds 100% is no permitted" := by
    intro ft'
    unfold maxReplicasArith
    rw [if_neg (by simp [hsts]), hres]
    simp only []
    rw [if_neg (by omega), if_pos htype, if_pos hover]
  have hstep : maxReplicasStep ws s.maxReplicas sum₀ ft₀
      = StepResult.stop "the sum of all subset's maxReplicas exceeds 100% is no permitted" := by
    rw [hm]
    rcases hft with h | h <;> rw [h] <;> simp only [maxReplicasStep]
    · exact harith _
    · rw [if_neg (by simp [htype])]
      exact harith _
  have hsingle : ∀ (l₂ : List WorkloadSpreadSubset) (i : Nat),
      subsetsLoop structural ops ws tmpl fldPath (s :: l₂) i seen₀ sum₀ ft₀
      = (subsetBaseErrs structural ops tmpl fldPath i seen₀ s
          ++ [mkInvalid ((fldPath.index i).child "maxReplicas")
              "the sum of all subset's maxReplicas exceeds 100% is no permitted"], none) := by
    intro l₂ i
    simp only [subsetsLoop, hstep]
  have happ : ∀ (l₂ : List WorkloadSpreadSubset),
      subsetsLoop structural ops ws tmpl fldPath (pre ++ s :: l₂) 0 [] 0 none
      = (errs₀ ++ (subsetBaseErrs structural ops tmpl fldPath pre.length seen₀ s
          ++ [mkInvalid ((fldPath.index pre.length).child "maxReplicas")
              "the sum of all subset's maxReplicas exceeds 100% is no permitted"]), none) := by
    intro l₂
    rw [subsetsLoop_append structural ops ws tmpl fldPath pre (s :: l₂) 0 [] 0 none, hpre]
    simp only [Nat.zero_add]
    rw [hsingle l₂ pre.length]
  have hv : ∀ (l₂ : List WorkloadSpreadSubset),
      validateWorkloadSpreadSubsets structural ops ws tmpl (pre ++ s :: l₂) fldPath
      = errs₀ ++ subsetBaseErrs structural ops tmpl fldPath pre.length seen₀ s
        ++ [mkInvalid ((fldPath.index pre.length).child "maxReplicas")
            "the sum of all subset's maxReplicas exceeds 100% is no permitted"] := by
    intro l₂
    unfold validateWorkloadSpreadSubsets
    rw [if_neg (by simp), happ l₂]
    simp [List.append_assoc]
  have hc := subsetsLoop_complete structural ops ws tmpl fldPath pre 0 [] 0 none
    errs₀ seen₀ sum₀ ft₀ hpre
  exact ⟨by simpa using hc.2.2.1, hc.2.2.2 (by omega), hv post, (hv post).trans (hv []).symm⟩

/-- Claim C9: for a target reference of a recognized kind whose group
check passes, a failing fetch of the workload (including not-found) adds
no validation error and merely leaves the resolved template unset; and
with no template the subset validation is independent of the
patch-simulation collaborators, so patch simulation is skipped. -/
theorem fetch_failure_tolerated (env : SpecEnv) (ns : String) (r : TargetReference)
    (p : FieldPath)
    (hav : r.apiVersion ≠ "") (hname : r.name ≠ "")
    (hk : recognizedKinds.contains r.kind = true)
    (hg : verifyGroupKind r r.kind (recognizedGroups r.kind) = Except.ok true)
    (hget : env.get r.kind ns r.name = none) :
    resolveTargetRef env ns (some r) p = ([], none) ∧
    (∀ (structural : Nat → WorkloadSpreadSubset → List FieldError) (ops₁ ops₂ : PatchOps)
      (ws : WorkloadSpread) (subsets : List WorkloadSpreadSubset) (q : FieldPath),
      validateWorkloadSpreadSubsets structural ops₁ ws none subsets q
        = validateWorkloadSpreadSubsets structural ops₂ ws none subsets q) := by
  constructor
  · have hno : ¬(r.apiVersion = "" ∨ r.name = "" ∨ r.kind = "") := by
      rintro (h | h | h)
      · exact hav h
      · exact hname h
      · rw [h] at hk; exact absurd hk (by decide)
    simp only [resolveTargetRef]
    rw [if_neg hno, if_pos hk]
    simp only [resolveBuiltin, hg]
    rw [hget]
  · intro structural ops₁ ops₂ ws subsets q
    unfold validateWorkloadSpreadSubsets
    rw [subsetsLoop_tmpl_none structural ops₁ ops₂ ws q subsets 0 [] 0 none]

/-- Claim C1 (amended form): a failing strategic merge yields an Invalid
error on the subset's patch field carrying the merge failure detail, but
it is not alone: the Go merge function returns nil modified bytes
alongside its error, the unmarshal of that empty input fails, and the
branch does not return early, so a second Invalid deserialization error
on the same patch field follows the merge error (with the checks on the
resulting zero pod possibly adding more). -/
theorem merge_failure_errors (ops : PatchOps) (podBytes patchRaw : RawBytes)
    (p : FieldPath) (e msg : String)
    (hm : ops.merge podBytes patchRaw = Except.error e)
    (hu : ops.unmarshal [] = Except.error msg) :
    ∃ rest, simulatePatch ops podBytes patchRaw p =
      mkInvalid p ("failed to merge patch: " ++ e)
        :: mkInvalid p ("failed to unmarshal: " ++ msg) :: rest := by
  simp only [simulatePatch, hm, hu]
  refine ⟨(match ops.convert Pod.empty with
      | Except.ok _ => []
      | Except.error _ => [mkInvalid p ("Convert_v1_Pod_To_core_Pod failed: " ++ msg)])
    ++ ops.validatePodSpec
        (match ops.convert Pod.empty with
         | Except.ok q => q
         | Except.error _ => Pod.empty) p, ?_⟩
  simp

/-- Concrete collaborators reproducing the Go libraries' behavior on a
malformed patch: the strategic merge rejects the patch and — as the Go
function does — returns nil modified bytes alongside its error, and
`json.Unmarshal` fails on the resulting empty input with Go's
"unexpected end of JSON input".  Conversion succeeds and pod-spec
validation reports nothing: the most favorable environment for the
exactly-one-error reading of the spec. -/
def badPatchOps : PatchOps where
  merge := fun _ _ => Except.error "invalid character as top-level value"
  unmarshal := fun b =>
    if b.isEmpty then Except.error "unexpected end of JSON input" else Except.ok ⟨b⟩
  convert := fun q => Except.ok q
  validatePodSpec := fun _ _ => []

/-- A serialized pod template and a malformed patch (concrete bytes). -/
def samplePodBytes : RawBytes := [123, 125]

/-- Malformed patch bytes. -/
def sampleBadPatch : RawBytes := [42]

/-- A subset carrying the malformed patch and no MaxReplicas. -/
def sampleSubsetC1 : WorkloadSpreadSubset := ⟨"a", none, some sampleBadPatch⟩

/-- A WorkloadSpread with a Deployment target and the patched subset. -/
def sampleWsC1 : WorkloadSpread :=
  ⟨"ws", "default",
    ⟨some ⟨"apps/v1", "Deployment", "web"⟩, [sampleSubsetC1], ⟨"", none⟩, none⟩⟩

/-- Delegated structural validators that report nothing. -/
def noStructural : Nat → WorkloadSpreadSubset → List FieldError := fun _ _ => []

/-- Claim C1 counterexample: on a concrete spec whose only subset carries
a patch the strategic merge rejects, subset validation produces TWO
Invalid errors on the patch field — the merge error and the unmarshal
error that the source unconditionally runs next — not exactly one, even
with pod conversion and pod-spec validation reporting nothing. -/
theorem merge_failure_not_single_error :
    badPatchOps.merge samplePodBytes sampleBadPatch
      = Except.error "invalid character as top-level value" ∧
    validateWorkloadSpreadSubsets noStructural badPatchOps sampleWsC1
        (some samplePodBytes) [sampleSubsetC1] []
      = [mkInvalid [FieldPathElem.index 0, FieldPathElem.child "patch"]
          "failed to merge patch: invalid character as top-level value",
         mkInvalid [FieldPathElem.index 0, FieldPathElem.child "patch"]
          "failed to unmarshal: unexpected end of JSON input"] ∧
    (validateWorkloadSpreadSubsets noStructural badPatchOps sampleWsC1
        (some samplePodBytes) [sampleSubsetC1] []).length ≠ 1 := by
  refine ⟨rfl, by decide, by decide⟩

/-- Witness for the amended claim C1 at the concrete environment. -/
theorem merge_failure_errors_witness :
    badPatchOps.merge samplePodBytes sampleBadPatch
      = Except.error "invalid character as top-level value" ∧
    badPatchOps.unmarshal [] = Except.error "unexpected end of JSON input" ∧
    ∃ rest, simulatePatch badPatchOps samplePodBytes sampleBadPatch []
      = mkInvalid [] ("failed to merge patch: " ++ "invalid character as top-level value")
        :: mkInvalid [] ("failed to unmarshal: " ++ "unexpected end of JSON input") :: rest :=
  ⟨rfl, rfl, merge_failure_errors badPatchOps samplePodBytes sampleBadPatch []
    "invalid character as top-level value" "unexpected end of JSON input" rfl rfl⟩

/-- Patch collaborators that always succeed and report nothing. -/
def okPatchOps : PatchOps where
  merge := fun b _ => Except.ok b
  unmarshal := fun b => Except.ok ⟨b⟩
  convert := fun q => Except.ok q
  validatePodSpec := fun _ _ => []

/-- A WorkloadSpread with no target reference (not StatefulSet-backed). -/
def sampleWs : WorkloadSpread := ⟨"ws", "default", ⟨none, [], ⟨"", none⟩, none⟩⟩

/-- Two percentage subsets summing to 80 with the last one set. -/
def sampleSubsetsC2 : List WorkloadSpreadSubset :=
  [⟨"a", some (IntOrString.fromStr "30%"), none⟩,
   ⟨"b", some (IntOrString.fromStr "50%"), none⟩]

/-- Witness for claim C2 at a concrete input: percentage subsets summing
to 80 with the last subset's MaxReplicas set. -/
theorem percent_sum_final_rule_witness :
    validateWorkloadSpreadSubsets noStructural okPatchOps sampleWs none
        sampleSubsetsC2 [] =
      [] ++ (if (some IntOrStringType.str : Option IntOrStringType)
            = some IntOrStringType.str ∧ (80 : Int) < 100 ∧
          lastMaxReplicasSet sampleSubsetsC2 then
        [mkInvalid ((FieldPath.index ([] : FieldPath) 0).child "maxReplicas")
          "maxReplicas sum of all subsets must equal 100% when type is specified as percent"]
      else []) ∧
    (some IntOrStringType.str : Option IntOrStringType) = firstMRType sampleSubsetsC2 ∧
    (80 : Int) = percentSum sampleSubsetsC2 :=
  percent_sum_final_rule noStructural okPatchOps sampleWs none [] sampleSubsetsC2
    [] ["b", "a"] 80 (some IntOrStringType.str) (by decide) (by decide)

/-- One integer subset before a percentage one, with a trailing subset. -/
def preC3 : List WorkloadSpreadSubset := [⟨"a", some (IntOrString.fromInt 1), none⟩]

/-- The offending mixed-type subset. -/
def sC3 : WorkloadSpreadSubset := ⟨"b", some (IntOrString.fromStr "50%"), none⟩

/-- A subset after the offender, which must never be examined. -/
def postC3 : List WorkloadSpreadSubset := [⟨"c", some (IntOrString.fromInt 5), none⟩]

/-- Witness for claim C3 at a concrete input: an integer cap followed by
a percentage cap. -/
theorem mixed_type_early_return_witness :
    firstMRType preC3 = some IntOrStringType.int ∧
    validateWorkloadSpreadSubsets noStructural okPatchOps sampleWs none
        (preC3 ++ sC3 :: postC3) []
      = [] ++ subsetBaseErrs noStructural okPatchOps none [] preC3.length ["a"] sC3
        ++ [mkInvalid ((FieldPath.index ([] : FieldPath) preC3.length).child "maxReplicas")
            "the maxReplicas type of all subsets must be the same"] ∧
    validateWorkloadSpreadSubsets noStructural okPatchOps sampleWs none
        (preC3 ++ sC3 :: postC3) []
      = validateWorkloadSpreadSubsets noStructural okPatchOps sampleWs none
        (preC3 ++ [sC3]) [] :=
  mixed_type_early_return noStructural okPatchOps sampleWs none [] preC3 sC3 postC3
    [] ["a"] 0 IntOrStringType.int (IntOrString.fromStr "50%") (by decide) rfl (by decide)

/-- Percentage subsets summing to 90 before the overflowing one. -/
def preC4 : List WorkloadSpreadSubset :=
  [⟨"a", some (IntOrString.fromStr "60%"), none⟩,
   ⟨"b", some (IntOrString.fromStr "30%"), none⟩]

/-- The subset at which the cumulative sum first exceeds 100. -/
def sC4 : WorkloadSpreadSubset := ⟨"c", some (IntOrString.fromStr "20%"), none⟩

/-- A subset after the overflow, which must never be examined. -/
def postC4 : List WorkloadSpreadSubset := [⟨"d", none, none⟩]

/-- Witness for claim C4 at a concrete input: 60 + 30 + 20 percent. -/
theorem percent_overflow_early_return_witness :
    (90 : Int) = percentSum preC4 ∧ (90 : Int) ≤ 100 ∧
    validateWorkloadSpreadSubsets noStructural okPatchOps sampleWs none
        (preC4 ++ sC4 :: postC4) []
      = [] ++ subsetBaseErrs noStructural okPatchOps none [] preC4.length ["b", "a"] sC4
        ++ [mkInvalid ((FieldPath.index ([] : FieldPath) preC4.length).child "maxReplicas")
            "the sum of all subset's maxReplicas exceeds 100% is no permitted"] ∧
    validateWorkloadSpreadSubsets noStructural okPatchOps sampleWs none
        (preC4 ++ sC4 :: postC4) []
      = validateWorkloadSpreadSubsets noStructural okPatchOps sampleWs none
        (preC4 ++ [sC4]) [] :=
  percent_overflow_early_return noStructural okPatchOps sampleWs none [] preC4 sC4
    postC4 [] ["b", "a"] 90 (some IntOrStringType.str) (IntOrString.fromStr "20%") 20
    (by decide) (Or.inr rfl) rfl rfl (by decide) rfl (by decide) (by decide)

/-- An adaptive configuration with a Fixed declared type, two subsets and
the last subset's MaxReplicas set. -/
def specC5 : WorkloadSpreadSpec :=
  ⟨none, [⟨"a", none, none⟩, ⟨"b", some (IntOrString.fromInt 1), none⟩],
    ⟨"Fixed", some ⟨none⟩⟩, none⟩

/-- Witness for claim C5 at a concrete input. -/
theorem adaptive_strategy_checks_witness :
    specC5.scheduleStrategy.adaptive = some ⟨none⟩ ∧
    (((∃ d, mkInvalid ((FieldPath.child ([] : FieldPath) "scheduleStrategy").child "type") d
        ∈ validateScheduleStrategy specC5 []) ↔ specC5.scheduleStrategy.type ≠ "Adaptive") ∧
    ((∃ d, mkInvalid ((FieldPath.child ([] : FieldPath) "scheduleStrategy").child "adaptive") d
        ∈ validateScheduleStrategy specC5 []) ↔
      (specC5.subsets.length > 1 ∧ lastMaxReplicasSet specC5.subsets)) ∧
    (∀ env ws, ws.spec = specC5 →
      ∃ a b, validateWorkloadSpreadSpec env ws [] =
        a ++ validateScheduleStrategy specC5 [] ++ b)) :=
  ⟨rfl, adaptive_strategy_checks specC5 [] ⟨none⟩ rfl⟩

/-- An adaptive configuration with RescheduleCriticalSeconds = -1 and two
subsets. -/
def specC6 : WorkloadSpreadSpec :=
  ⟨none, [⟨"a", none, none⟩, ⟨"b", none, none⟩], ⟨"Adaptive", some ⟨some (-1)⟩⟩, none⟩

/-- Witness for claim C6 at a concrete input. -/
theorem reschedule_seconds_range_witness :
    specC6.scheduleStrategy.adaptive = some ⟨some (-1)⟩ ∧
    (((∃ d, mkInvalid (((FieldPath.child ([] : FieldPath) "scheduleStrategy").child
        "adaptive").child "rescheduleCriticalSeconds") d
        ∈ validateScheduleStrategy specC6 []) ↔
      ((-1 : Int) < 0 ∨ (-1 : Int) > allowedMaxSecondsFor specC6.subsets.length)) ∧
    ((-1 : Int) = -1 → ∃ d, mkInvalid (((FieldPath.child ([] : FieldPath)
        "scheduleStrategy").child "adaptive").child "rescheduleCriticalSeconds") d
        ∈ validateScheduleStrategy specC6 []) ∧
    allowedMaxSecondsFor specC6.subsets.length =
      (if specC6.subsets.length > 1 then
        (MaxScheduledFailedDurationSeconds - 5) / ((specC6.subsets.length : Int) - 1)
      else maxInt32) ∧
    (∀ env ws, ws.spec = specC6 →
      ∃ a b, validateWorkloadSpreadSpec env ws [] =
        a ++ validateScheduleStrategy specC6 [] ++ b)) :=
  ⟨rfl, reschedule_seconds_range specC6 [] ⟨some (-1)⟩ (-1) rfl rfl⟩

/-- The old target reference of the update witness. -/
def refOldC8 : TargetReference := ⟨"apps/v1", "Deployment", "web"⟩

/-- The new target reference of the update witness: only the name
changed. -/
def refNewC8 : TargetReference := ⟨"apps/v1", "Deployment", "web2"⟩

/-- Witness for claim C8 at a concrete input: renaming "web" to "web2". -/
theorem targetRefUpdate_immutable_witness :
    ((validateWorkloadSpreadTargetRefUpdate (some refNewC8) (some refOldC8) [] = [] ↔
      (parsedGroup refNewC8.apiVersion = parsedGroup refOldC8.apiVersion ∧
        refNewC8.kind = refOldC8.kind ∧ refNewC8.name = refOldC8.name)) ∧
    ((parsedGroup refNewC8.apiVersion ≠ parsedGroup refOldC8.apiVersion ∨
        refNewC8.kind ≠ refOldC8.kind ∨ refNewC8.name ≠ refOldC8.name) →
      validateWorkloadSpreadTargetRefUpdate (some refNewC8) (some refOldC8) [] =
        [mkInvalid (FieldPath.child ([] : FieldPath) "targetRef")
          "change TargetReference is not permitted for WorkloadSpread"])) :=
  targetRefUpdate_immutable refNewC8 refOldC8 []

/-- A resolver environment whose every fetch fails (workload absent) and
whose whitelist is empty. -/
def envC9 : SpecEnv where
  get := fun _ _ _ => none
  whiteList := Except.ok []
  structural := noStructural
  patchOps := okPatchOps
  parseSelector := fun _ => none

/-- A recognized, group-valid CloneSet reference. -/
def refC9 : TargetReference := ⟨"apps.kruise.io/v1alpha1", "CloneSet", "web"⟩

/-- Witness for claim C9 at a concrete input: the CloneSet does not
exist, the fetch fails, and no error is produced. -/
theorem fetch_failure_tolerated_witness :
    resolveTargetRef envC9 "default" (some refC9) [] = ([], none) ∧
    (∀ (structural : Nat → WorkloadSpreadSubset → List FieldError) (ops₁ ops₂ : PatchOps)
      (ws : WorkloadSpread) (subsets : List WorkloadSpreadSubset) (q : FieldPath),
      validateWorkloadSpreadSubsets structural ops₁ ws none subsets q
        = validateWorkloadSpreadSubsets structural ops₂ ws none subsets q) :=
  fetch_failure_tolerated envC9 "default" refC9 [] (by decide) (by decide)
    (by decide) rfl rfl
